import Mathlib

/-!
Shallow embedding of the 4fore-league backend glue layer:
the four Supabase Edge Function request handlers
(`create-setup-intent`, `create-subscription`, `create-portal-session`,
`send-email`), the email template renderer, and the browser-side auth
facade wrappers (`createSetupIntent`, `sendEmail`, `upsertProfile`).

Modelling conventions:
* A handler is a pure function of the request method, the secret-key
  configuration value (the empty string models an unset environment
  variable, matching `Deno.env.get(...) ?? ''`), the parsed request body
  (`Except Unit B`, where `.error ()` models a JSON parse failure), and
  an upstream oracle giving, for each upstream endpoint the handler may
  contact, either the parsed JSON mapping that endpoint would return
  (`.ok`) or a transport-level exception (`.error msg`).
* A handler returns the HTTP response it produces together with the list
  of upstream calls it performed, in order.
* JavaScript string truthiness (`if (!x)`) is modelled by `jsTruthy` on
  `Option String`: `none` models `undefined`, `some ""` the empty string.
* Upstream response mappings are structures whose fields are exactly the
  fields the source reads, each `Option`-valued (`none` = absent).
-/

set_option autoImplicit false

namespace FourFore

/-- JavaScript truthiness of a possibly-absent string value:
`undefined`/missing and `""` are falsy, every other string is truthy. -/
def jsTruthy : Option String → Bool
  | none => false
  | some s => s != ""

/-- A JSON object field value as the handlers produce them: a string, or
JavaScript `undefined` (which `JSON.stringify` omits from the output). -/
inductive JsonField where
  | str (s : String)
  | undef

/-- Lift an optional upstream string field into a payload field, as JS
property access does: an absent field becomes `undefined`. -/
def ofNullable : Option String → JsonField
  | some s => .str s
  | none => .undef

def hexDigit (n : Nat) : Char :=
  if n < 10 then Char.ofNat (48 + n) else Char.ofNat (87 + n)

/-- How `JSON.stringify` escapes one character inside a string literal. -/
def jsonEscapeChar (c : Char) : String :=
  if c = '"' then "\\\""
  else if c = '\\' then "\\\\"
  else if c = '\x08' then "\\b"
  else if c = '\t' then "\\t"
  else if c = '\n' then "\\n"
  else if c = '\x0c' then "\\f"
  else if c = '\r' then "\\r"
  else if c.toNat < 32 then
    "\\u00" ++ String.mk [hexDigit (c.toNat / 16), hexDigit (c.toNat % 16)]
  else String.singleton c

def jsonEscapeList : List Char → String
  | [] => ""
  | c :: cs => jsonEscapeChar c ++ jsonEscapeList cs

def jsonEscape (s : String) : String :=
  jsonEscapeList s.toList

def stringifyField : String × JsonField → Option String
  | (k, .str s) => some ("\"" ++ jsonEscape k ++ "\":\"" ++ jsonEscape s ++ "\"")
  | (_, .undef) => none

/-- `JSON.stringify` of a flat object whose values are strings or
`undefined`: `undefined` fields are omitted. -/
def stringifyObj (o : List (String × JsonField)) : String :=
  "\x7b" ++ String.intercalate "," (o.filterMap stringifyField) ++ "\x7d"

/-- An HTTP response as the handlers build them: status code, body
(`none` for a bodyless response such as the 204 pre-flight reply), and
response headers in order. -/
structure Response where
  status : Nat
  body : Option String
  headers : List (String × String)

/-- The fixed CORS header set shared by all four handlers. -/
def CORS_HEADERS : List (String × String) :=
  [("Access-Control-Allow-Origin", "*"),
   ("Access-Control-Allow-Headers", "authorization, x-client-info, apikey, content-type"),
   ("Access-Control-Allow-Methods", "POST, OPTIONS")]

/-- The `json(data, status)` helper shared by all four handlers: the
JSON-serialized payload with the CORS headers plus `Content-Type`. -/
def json (data : List (String × JsonField)) (status : Nat) : Response :=
  ⟨status, some (stringifyObj data),
   CORS_HEADERS ++ [("Content-Type", "application/json")]⟩

/-- The `{ error: msg }` payload every error path wraps in `json`. -/
def errObj (msg : String) : List (String × JsonField) :=
  [("error", .str msg)]

/-- The `OPTIONS` pre-flight reply
`new Response(null, { status: 204, headers: CORS_HEADERS })`. -/
def preflightResponse : Response :=
  ⟨204, none, CORS_HEADERS⟩

/-- One upstream call, as issued by a handler, with the arguments the
source passes to it. -/
inductive UpCall where
  | stripePostCustomers (email userId : String)
  | stripePostSetupIntents (customer : Option String)
  | stripeGetCustomer (customerId : String)
  | stripeGetPaymentMethods (customerId : String)
  | stripePostSubscriptions (customerId priceId paymentMethodId : String)
  | stripePostPortalSession (customerId returnUrl : String)
  | resendSendEmail (fromAddr toAddr subject html : String)

/-- An error object embedded in a Stripe response mapping; the handlers
read only its `message` field. -/
structure StripeError where
  message : Option String

/-! ## Email template renderer (send-email) -/

/-- The sender constant `FROM_ADDRESS` of the send-email function. -/
def FROM_ADDRESS : String := "4FORE League <hello@4fore.golf>"

/-- JavaScript property access on a parsed JSON object, modelled as an
association list: the value of the last binding for the key, `none` when
the key is absent. -/
def jsGet (data : List (String × String)) (k : String) : Option String :=
  (data.reverse.find? (fun p => p.1 == k)).map (fun p => p.2)

/-- The result of a successful template rendering: `{ subject, html }`. -/
structure EmailMessage where
  subject : String
  html : String

/-- The shared HTML email shell (`template(heading, body)`): the source's
template literal with `heading` and `body` interpolated. -/
def template (heading : String) (body : String) : String :=
  "<!DOCTYPE html>
<html lang=\"en\">
<head>
<meta charset=\"UTF-8\">
<meta name=\"viewport\" content=\"width=device-width,initial-scale=1\">
<link href=\"https://fonts.googleapis.com/css2?family=Bebas+Neue&family=DM+Sans:wght@400;500&display=swap\" rel=\"stylesheet\">
<style>
  body \x7b margin:0; background:#F5F0E8; font-family:'DM Sans',Arial,sans-serif; \x7d
  a \x7b color:#1B3D2A; \x7d
</style>
</head>
<body>
<table width=\"100%\" cellpadding=\"0\" cellspacing=\"0\" bgcolor=\"#F5F0E8\">
  <tr><td align=\"center\" style=\"padding:40px 16px;\">
    <table width=\"100%\" cellpadding=\"0\" cellspacing=\"0\" style=\"max-width:560px;\">

      <!-- Header -->
      <tr>
        <td style=\"background:#1B3D2A; padding:28px 40px; border-radius:8px 8px 0 0;\">
          <span style=\"font-family:'Bebas Neue',Arial,sans-serif;font-size:28px;color:#C9A84C;letter-spacing:2px;\">4FORE LEAGUE</span>
        </td>
      </tr>

      <!-- Body -->
      <tr>
        <td style=\"background:#ffffff;padding:40px;border-radius:0 0 8px 8px;\">
          <h1 style=\"font-family:'Bebas Neue',Arial,sans-serif;font-size:32px;color:#1B3D2A;margin:0 0 20px;letter-spacing:1px;\">" ++ heading ++ "</h1>
          <div style=\"font-size:15px;line-height:1.7;color:#333;\">
            " ++ body ++ "
          </div>
        </td>
      </tr>

      <!-- Footer -->
      <tr>
        <td style=\"padding:24px 0;text-align:center;\">
          <p style=\"font-size:12px;color:#9B9083;margin:0;\">4FORE League · Never Lay Up</p>
          <p style=\"font-size:12px;color:#9B9083;margin:4px 0 0;\">
            <a href=\"https://4fore-league.vercel.app\" style=\"color:#9B9083;\">4fore-league.vercel.app</a>
          </p>
        </td>
      </tr>

    </table>
  </td></tr>
</table>
</body>
</html>"

/-- The `ctaButton(href, label)` call-to-action helper. -/
def ctaButton (href : String) (label : String) : String :=
  "<p style=\"margin:28px 0;\">
    <a href=\"" ++ href ++ "\" style=\"display:inline-block;padding:14px 32px;background:#1B3D2A;color:#F5F0E8;font-family:'Bebas Neue',Arial,sans-serif;font-size:16px;letter-spacing:2px;text-decoration:none;border-radius:4px;\">" ++ label ++ "</a>
  </p>"

/-- `buildEmail(type, _to, data)`: maps a template identifier and context
mapping to a subject and HTML body, or `none` for an unrecognized
identifier. The JS `switch` on string literals is an if-chain of strict
equality tests; `data.name ?? 'Golfer'` is the name fallback. -/
def buildEmail (type : String) (_toAddr : String)
    (data : List (String × String)) : Option EmailMessage :=
  let name := (jsGet data "name").getD "Golfer"
  if type = "welcome" then
    some ⟨"Welcome to 4FORE League 🏌️",
      template ("Welcome, " ++ name ++ "!") ("
          <p>You're in. Your 14-day free trial has started — no charge today.</p>
          <p>Here's what you can do right now:</p>
          <ul>
            <li><strong>Start a round</strong> — invite friends and score live</li>
            <li><strong>Complete your profile</strong> — set your handicap and display name</li>
            <li><strong>Explore the leaderboard</strong> — see how your group stacks up</li>
          </ul>
          " ++ ctaButton "https://4fore-league.vercel.app/round.html" "Start Your First Round" ++ "
          <p style=\"color:#6B6B6B;font-size:13px;margin-top:24px;\">Questions? Just reply to this email.</p>
        ")⟩
  else if type = "password-reset" then
    some ⟨"Reset your 4FORE League password",
      template "Reset your password" ("
          <p>Hi " ++ name ++ ",</p>
          <p>We received a request to reset your password. Click the link in the separate email from Supabase to set a new one.</p>
          <p>If you didn't request this, you can safely ignore this message — your account is secure.</p>
          <p style=\"color:#6B6B6B;font-size:13px;margin-top:24px;\">This request will expire in 24 hours.</p>
        ")⟩
  else if type = "trial-expiry-7" then
    some ⟨"Your 4FORE trial ends in 7 days",
      template "7 days left on your trial" ("
          <p>Hi " ++ name ++ ",</p>
          <p>Your free trial ends in <strong>7 days</strong>. After that, your card on file will be charged to keep your rounds, leaderboard, and profile active.</p>
          <p>You don't need to do anything — we'll handle it automatically.</p>
          " ++ ctaButton "https://4fore-league.vercel.app/round.html" "Play a Round Today" ++ "
        ")⟩
  else if type = "trial-expiry-3" then
    some ⟨"Your 4FORE trial ends in 3 days",
      template "3 days left on your trial" ("
          <p>Hi " ++ name ++ ",</p>
          <p>Just a heads up — your trial ends in <strong>3 days</strong>. Your scoring history and league data will be preserved.</p>
          " ++ ctaButton "https://4fore-league.vercel.app/round.html" "Make the most of it" ++ "
        ")⟩
  else if type = "trial-expiry-1" then
    some ⟨"Last day of your 4FORE trial",
      template "Trial ends tomorrow" ("
          <p>Hi " ++ name ++ ",</p>
          <p>Your trial ends <strong>tomorrow</strong>. Your card will be charged after midnight to continue your membership.</p>
          <p>If you'd like to cancel, reply to this email and we'll sort it out — no questions asked.</p>
          " ++ ctaButton "https://4fore-league.vercel.app/round.html" "Play one last trial round" ++ "
        ")⟩
  else
    none

/-! ## create-setup-intent handler -/

/-- Parsed request body of `create-setup-intent`. -/
structure SetupIntentBody where
  email : Option String
  userId : Option String

/-- The fields `create-setup-intent` reads from the `customers` call. -/
structure CustomerCreateResp where
  error : Option StripeError
  id : Option String

/-- The fields `create-setup-intent` reads from the `setup_intents` call. -/
structure SetupIntentResp where
  error : Option StripeError
  client_secret : Option String

/-- Upstream oracle for `create-setup-intent`: what each of its two
Stripe endpoints would return (`.error msg` = transport exception). -/
structure SetupIntentUpstream where
  customers : Except String CustomerCreateResp
  setup_intents : Except String SetupIntentResp

/-- The `create-setup-intent` serve handler. -/
def createSetupIntentHandler (method : String) (STRIPE_SECRET_KEY : String)
    (body : Except Unit SetupIntentBody) (up : SetupIntentUpstream) :
    Response × List UpCall :=
  if method = "OPTIONS" then (preflightResponse, [])
  else if method ≠ "POST" then (json (errObj "Method not allowed") 405, [])
  else if STRIPE_SECRET_KEY = "" then (json (errObj "Server configuration error") 500, [])
  else match body with
  | .error _ => (json (errObj "Invalid JSON body") 400, [])
  | .ok b =>
    if !jsTruthy b.email || !jsTruthy b.userId then
      (json (errObj "email and userId are required") 400, [])
    else
      let email := b.email.getD ""
      let userId := b.userId.getD ""
      let calls1 := [UpCall.stripePostCustomers email userId]
      match up.customers with
      | .error _ => (json (errObj "Internal server error") 500, calls1)
      | .ok customer =>
        match customer.error with
        | some e => (json (errObj (e.message.getD "Failed to create customer")) 502, calls1)
        | none =>
          let calls2 := calls1 ++ [UpCall.stripePostSetupIntents customer.id]
          match up.setup_intents with
          | .error _ => (json (errObj "Internal server error") 500, calls2)
          | .ok setupIntent =>
            match setupIntent.error with
            | some e => (json (errObj (e.message.getD "Failed to create setup intent")) 502, calls2)
            | none =>
              (json [("clientSecret", ofNullable setupIntent.client_secret),
                     ("customerId", ofNullable customer.id)] 200, calls2)

/-! ## create-subscription handler -/

/-- Parsed request body of `create-subscription`. -/
structure SubscriptionBody where
  customerId : Option String
  priceId : Option String

/-- `customer.invoice_settings`, read for `default_payment_method`. -/
structure InvoiceSettings where
  default_payment_method : Option String

/-- The fields `create-subscription` reads from the customer fetch. -/
structure CustomerGetResp where
  error : Option StripeError
  invoice_settings : Option InvoiceSettings

/-- One element of the payment-methods list; only `id` is read. -/
structure PaymentMethodObj where
  id : Option String

/-- The fields read from the `payment_methods` listing. Note the handler
never reads this mapping's `error` field. -/
structure PaymentMethodsResp where
  error : Option StripeError
  data : Option (List PaymentMethodObj)

/-- The fields read from the `subscriptions` creation call. -/
structure SubscriptionResp where
  error : Option StripeError
  id : Option String
  status : Option String

/-- Upstream oracle for `create-subscription`'s three Stripe endpoints. -/
structure SubscriptionUpstream where
  customer : Except String CustomerGetResp
  payment_methods : Except String PaymentMethodsResp
  subscription : Except String SubscriptionResp

/-- `if (pms.data?.length > 0) paymentMethodId = pms.data[0].id`:
the payment method after inspecting the listing — the first element's
`id` when the `data` array is non-empty, the prior value otherwise. -/
def pmAfterListing (pm0 : Option String) :
    Option (List PaymentMethodObj) → Option String
  | some (p :: _) => p.id
  | _ => pm0

/-- The `create-subscription` serve handler. -/
def createSubscriptionHandler (method : String) (STRIPE_SECRET_KEY : String)
    (body : Except Unit SubscriptionBody) (up : SubscriptionUpstream) :
    Response × List UpCall :=
  if method = "OPTIONS" then (preflightResponse, [])
  else if method ≠ "POST" then (json (errObj "Method not allowed") 405, [])
  else if STRIPE_SECRET_KEY = "" then (json (errObj "Server configuration error") 500, [])
  else match body with
  | .error _ => (json (errObj "Invalid JSON body") 400, [])
  | .ok b =>
    if !jsTruthy b.customerId || !jsTruthy b.priceId then
      (json (errObj "customerId and priceId are required") 400, [])
    else
      let customerId := b.customerId.getD ""
      let priceId := b.priceId.getD ""
      let calls1 := [UpCall.stripeGetCustomer customerId]
      match up.customer with
      | .error _ => (json (errObj "Internal server error") 500, calls1)
      | .ok customer =>
        match customer.error with
        | some e => (json (errObj (e.message.getD "Customer not found")) 404, calls1)
        | none =>
          let pm0 := customer.invoice_settings.bind
            (fun s => s.default_payment_method)
          let listing : Except String (Option String) × List UpCall :=
            if jsTruthy pm0 then (.ok pm0, [])
            else
              match up.payment_methods with
              | .error e => (.error e, [UpCall.stripeGetPaymentMethods customerId])
              | .ok pms => (.ok (pmAfterListing pm0 pms.data),
                            [UpCall.stripeGetPaymentMethods customerId])
          match listing with
          | (.error _, c2) =>
            (json (errObj "Internal server error") 500, calls1 ++ c2)
          | (.ok paymentMethodId, c2) =>
            if !jsTruthy paymentMethodId then
              (json (errObj "No payment method found for this customer. Please update your payment method first.") 400,
               calls1 ++ c2)
            else
              let pm := paymentMethodId.getD ""
              let calls3 := calls1 ++ c2 ++
                [UpCall.stripePostSubscriptions customerId priceId pm]
              match up.subscription with
              | .error _ => (json (errObj "Internal server error") 500, calls3)
              | .ok subscription =>
                match subscription.error with
                | some e =>
                  (json (errObj (e.message.getD "Failed to create subscription")) 502, calls3)
                | none =>
                  (json [("subscriptionId", ofNullable subscription.id),
                         ("status", ofNullable subscription.status)] 200, calls3)

/-! ## create-portal-session handler -/

/-- Parsed request body of `create-portal-session`. -/
structure PortalBody where
  customerId : Option String
  returnUrl : Option String

/-- The fields read from the `billing_portal/sessions` call. -/
structure PortalSessionResp where
  error : Option StripeError
  url : Option String

/-- The `create-portal-session` serve handler. -/
def createPortalSessionHandler (method : String) (STRIPE_SECRET_KEY : String)
    (body : Except Unit PortalBody) (up : Except String PortalSessionResp) :
    Response × List UpCall :=
  if method = "OPTIONS" then (preflightResponse, [])
  else if method ≠ "POST" then (json (errObj "Method not allowed") 405, [])
  else if STRIPE_SECRET_KEY = "" then (json (errObj "Server configuration error") 500, [])
  else match body with
  | .error _ => (json (errObj "Invalid JSON body") 400, [])
  | .ok b =>
    if !jsTruthy b.customerId || !jsTruthy b.returnUrl then
      (json (errObj "customerId and returnUrl are required") 400, [])
    else
      let customerId := b.customerId.getD ""
      let returnUrl := b.returnUrl.getD ""
      let calls1 := [UpCall.stripePostPortalSession customerId returnUrl]
      match up with
      | .error _ => (json (errObj "Internal server error") 500, calls1)
      | .ok session =>
        match session.error with
        | some e => (json (errObj (e.message.getD "Failed to create portal session")) 502, calls1)
        | none => (json [("url", ofNullable session.url)] 200, calls1)

/-! ## send-email handler -/

/-- Parsed request body of `send-email`; `data` is `none` when the
request omits the mapping (the handler then defaults it to `{}`). -/
structure SendEmailBody where
  type : Option String
  toAddr : Option String
  data : Option (List (String × String))

/-- The fields read from the Resend response body. -/
structure ResendBody where
  message : Option String
  id : Option String

/-- The Resend fetch outcome: the `res.ok` flag and the parsed body. -/
structure ResendFetch where
  ok : Bool
  result : ResendBody

/-- The `send-email` serve handler. -/
def sendEmailHandler (method : String) (RESEND_API_KEY : String)
    (body : Except Unit SendEmailBody) (up : Except String ResendFetch) :
    Response × List UpCall :=
  if method = "OPTIONS" then (preflightResponse, [])
  else if method ≠ "POST" then (json (errObj "Method not allowed") 405, [])
  else if RESEND_API_KEY = "" then (json (errObj "Server configuration error") 500, [])
  else match body with
  | .error _ => (json (errObj "Invalid JSON body") 400, [])
  | .ok b =>
    let data := b.data.getD []
    if !jsTruthy b.type || !jsTruthy b.toAddr then
      (json (errObj "type and to are required") 400, [])
    else
      let type := b.type.getD ""
      let toAddr := b.toAddr.getD ""
      match buildEmail type toAddr data with
      | none => (json (errObj ("Unknown email type: " ++ type)) 400, [])
      | some email =>
        let calls1 := [UpCall.resendSendEmail FROM_ADDRESS toAddr email.subject email.html]
        match up with
        | .error _ => (json (errObj "Internal server error") 500, calls1)
        | .ok res =>
          if !res.ok then
            (json (errObj (res.result.message.getD "Failed to send email")) 502, calls1)
          else
            (json [("id", ofNullable res.result.id)] 200, calls1)

/-! ## Browser auth facade (auth.js) -/

/-- The JSON a browser-side wrapper parses from the
`create-setup-intent` handler's response. -/
structure CsiResponseJson where
  error : Option String
  clientSecret : Option String
  customerId : Option String

/-- The JSON the browser-side `sendEmail` wrapper parses from the
`send-email` handler's response. -/
structure SendEmailRespJson where
  error : Option String
  id : Option String

/-- `auth.createSetupIntent`, applied to the parsed handler response:
`if (json.error) throw new Error(json.error); return json;`. An
`Except.error` models the thrown exception, carrying its message. -/
def createSetupIntentWrapper (j : CsiResponseJson) :
    Except String CsiResponseJson :=
  if jsTruthy j.error then .error (j.error.getD "") else .ok j

/-- `auth.sendEmail`, applied to the parsed handler response: the source
is `return res.json();` — the parsed mapping is returned with no error
inspection and no throw, so the model is total and always `.ok`. -/
def sendEmailWrapper (j : SendEmailRespJson) :
    Except String SendEmailRespJson :=
  .ok j

/-- Whether a wrapper call throws (lands in `Except.error`). -/
def isThrow {α : Type} : Except String α → Bool
  | .error _ => true
  | .ok _ => false

/-- The row object `auth.upsertProfile` passes to
`.upsert({ id: userId, ...fields, updated_at: new Date().toISOString() })`.
`browserNow` is the browser clock reading `new Date().toISOString()`;
later bindings override earlier ones (JS spread semantics, see `rowGet`). -/
def upsertProfileRow (userId : String) (fields : List (String × String))
    (browserNow : String) : List (String × String) :=
  ("id", userId) :: fields ++ [("updated_at", browserNow)]

/-- The value a key has in a JS object literal built by spreads: the last
binding wins. -/
def rowGet (row : List (String × String)) (k : String) : Option String :=
  (row.reverse.find? (fun p => p.1 == k)).map (fun p => p.2)

/-! ## Theorems -/

/-- C5: For every one of the four server-side handlers and every request:
an OPTIONS request returns status 204 with an empty body and the fixed
CORS headers regardless of payload, and any non-POST, non-OPTIONS method
returns status 405 with body `{"error":"Method not allowed"}`; both
checks occur before the credential check, body parsing and field
validation (the results below hold for every configuration value, every
request body — well-formed or not — and every upstream oracle, and no
upstream call is performed). -/
theorem method_gate_all_handlers :
    preflightResponse = ⟨204, none, CORS_HEADERS⟩ ∧
    (json (errObj "Method not allowed") 405).body
      = some "\x7b\"error\":\"Method not allowed\"\x7d" ∧
    (∀ key body up, createSetupIntentHandler "OPTIONS" key body up
      = (preflightResponse, [])) ∧
    (∀ key body up, createSubscriptionHandler "OPTIONS" key body up
      = (preflightResponse, [])) ∧
    (∀ key body up, createPortalSessionHandler "OPTIONS" key body up
      = (preflightResponse, [])) ∧
    (∀ key body up, sendEmailHandler "OPTIONS" key body up
      = (preflightResponse, [])) ∧
    (∀ m key body up, m ≠ "OPTIONS" → m ≠ "POST" →
      createSetupIntentHandler m key body up
        = (json (errObj "Method not allowed") 405, [])) ∧
    (∀ m key body up, m ≠ "OPTIONS" → m ≠ "POST" →
      createSubscriptionHandler m key body up
        = (json (errObj "Method not allowed") 405, [])) ∧
    (∀ m key body up, m ≠ "OPTIONS" → m ≠ "POST" →
      createPortalSessionHandler m key body up
        = (json (errObj "Method not allowed") 405, [])) ∧
    (∀ m key body up, m ≠ "OPTIONS" → m ≠ "POST" →
      sendEmailHandler m key body up
        = (json (errObj "Method not allowed") 405, [])) := by
  refine ⟨rfl, rfl, ?_, ?_, ?_, ?_, ?_, ?_, ?_, ?_⟩ <;> intros <;>
    simp_all [createSetupIntentHandler, createSubscriptionHandler,
      createPortalSessionHandler, sendEmailHandler]

/-- Witness for C5 at concrete inputs: the method gate at `OPTIONS` and
at `GET` for each handler. -/
theorem method_gate_all_handlers_witness :
    createSetupIntentHandler "OPTIONS" "" (.error ())
        ⟨.error "", .error ""⟩ = (preflightResponse, []) ∧
    createSubscriptionHandler "OPTIONS" "" (.error ())
        ⟨.error "", .error "", .error ""⟩ = (preflightResponse, []) ∧
    createPortalSessionHandler "OPTIONS" "" (.error ()) (.error "")
      = (preflightResponse, []) ∧
    sendEmailHandler "OPTIONS" "" (.error ()) (.error "")
      = (preflightResponse, []) ∧
    createSetupIntentHandler "GET" "sk_test_1" (.error ())
        ⟨.error "", .error ""⟩ = (json (errObj "Method not allowed") 405, []) ∧
    createSubscriptionHandler "GET" "sk_test_1" (.error ())
        ⟨.error "", .error "", .error ""⟩
      = (json (errObj "Method not allowed") 405, []) ∧
    createPortalSessionHandler "GET" "sk_test_1" (.error ()) (.error "")
      = (json (errObj "Method not allowed") 405, []) ∧
    sendEmailHandler "GET" "re_test_1" (.error ()) (.error "")
      = (json (errObj "Method not allowed") 405, []) :=
  ⟨method_gate_all_handlers.2.2.1 _ _ _,
   method_gate_all_handlers.2.2.2.1 _ _ _,
   method_gate_all_handlers.2.2.2.2.1 _ _ _,
   method_gate_all_handlers.2.2.2.2.2.1 _ _ _,
   method_gate_all_handlers.2.2.2.2.2.2.1 _ _ _ _ (by decide) (by decide),
   method_gate_all_handlers.2.2.2.2.2.2.2.1 _ _ _ _ (by decide) (by decide),
   method_gate_all_handlers.2.2.2.2.2.2.2.2.1 _ _ _ _ (by decide) (by decide),
   method_gate_all_handlers.2.2.2.2.2.2.2.2.2 _ _ _ _ (by decide) (by decide)⟩

/-- C9: For every one of the four server-side handlers, a required
request field whose value is present but falsy — `none` models an absent
field, `some ""` the empty string, and `jsTruthy` is false exactly for
these — yields the 400 missing-fields envelope with no upstream call,
identically for absent and falsy-present fields. -/
theorem falsy_required_fields_400 :
    (∀ key b up, key ≠ "" →
      (jsTruthy b.email = false ∨ jsTruthy b.userId = false) →
      createSetupIntentHandler "POST" key (.ok b) up
        = (json (errObj "email and userId are required") 400, [])) ∧
    (∀ key b up, key ≠ "" →
      (jsTruthy b.customerId = false ∨ jsTruthy b.priceId = false) →
      createSubscriptionHandler "POST" key (.ok b) up
        = (json (errObj "customerId and priceId are required") 400, [])) ∧
    (∀ key b up, key ≠ "" →
      (jsTruthy b.customerId = false ∨ jsTruthy b.returnUrl = false) →
      createPortalSessionHandler "POST" key (.ok b) up
        = (json (errObj "customerId and returnUrl are required") 400, [])) ∧
    (∀ key b up, key ≠ "" →
      (jsTruthy b.type = false ∨ jsTruthy b.toAddr = false) →
      sendEmailHandler "POST" key (.ok b) up
        = (json (errObj "type and to are required") 400, [])) := by
  refine ⟨?_, ?_, ?_, ?_⟩ <;> rintro key b up hk (h | h) <;>
    simp_all [createSetupIntentHandler, createSubscriptionHandler,
      createPortalSessionHandler, sendEmailHandler]

/-- Witness for C9: each handler on a body whose required fields are the
empty string (present but falsy) returns the 400 missing-fields envelope
and performs no upstream call. -/
theorem falsy_required_fields_400_witness :
    jsTruthy (some "") = false ∧
    createSetupIntentHandler "POST" "sk_test_1" (.ok ⟨some "", some "u1"⟩)
        ⟨.error "", .error ""⟩
      = (json (errObj "email and userId are required") 400, []) ∧
    createSubscriptionHandler "POST" "sk_test_1" (.ok ⟨some "", some "price_1"⟩)
        ⟨.error "", .error "", .error ""⟩
      = (json (errObj "customerId and priceId are required") 400, []) ∧
    createPortalSessionHandler "POST" "sk_test_1" (.ok ⟨some "cus_1", some ""⟩)
        (.error "")
      = (json (errObj "customerId and returnUrl are required") 400, []) ∧
    sendEmailHandler "POST" "re_test_1" (.ok ⟨some "", some "a@b.com", none⟩)
        (.error "")
      = (json (errObj "type and to are required") 400, []) :=
  ⟨rfl,
   falsy_required_fields_400.1 _ _ _ (by decide) (Or.inl rfl),
   falsy_required_fields_400.2.1 _ _ _ (by decide) (Or.inl rfl),
   falsy_required_fields_400.2.2.1 _ _ _ (by decide) (Or.inr rfl),
   falsy_required_fields_400.2.2.2 _ _ _ (by decide) (Or.inl rfl)⟩

/-- C4: For every one of the four server-side handlers, a transport-level
exception from any upstream call (modelled as `.error e` in the upstream
oracle, for an arbitrary exception message `e`) yields a response equal
to `json {error: "Internal server error"} 500` — the same constant
response for every exception message `e`, so the exception's message
never influences (and in particular never appears by dependence in) the
response body, which is exactly `{"error":"Internal server error"}`
(last conjunct). Conjuncts cover each throw point each handler can
reach: both Stripe calls of create-setup-intent, all three Stripe calls
of create-subscription, the portal-session call, and the Resend call. -/
theorem transport_error_internal_500 :
    (∀ key em uid e si, key ≠ "" → em ≠ "" → uid ≠ "" →
      (createSetupIntentHandler "POST" key (.ok ⟨some em, some uid⟩)
        ⟨.error e, si⟩).1 = json (errObj "Internal server error") 500) ∧
    (∀ key em uid e cid, key ≠ "" → em ≠ "" → uid ≠ "" →
      (createSetupIntentHandler "POST" key (.ok ⟨some em, some uid⟩)
        ⟨.ok ⟨none, cid⟩, .error e⟩).1
        = json (errObj "Internal server error") 500) ∧
    (∀ key cid pid e pmr sr, key ≠ "" → cid ≠ "" → pid ≠ "" →
      (createSubscriptionHandler "POST" key (.ok ⟨some cid, some pid⟩)
        ⟨.error e, pmr, sr⟩).1 = json (errObj "Internal server error") 500) ∧
    (∀ key cid pid e iset sr, key ≠ "" → cid ≠ "" → pid ≠ "" →
      jsTruthy (iset.bind fun s => s.default_payment_method) = false →
      (createSubscriptionHandler "POST" key (.ok ⟨some cid, some pid⟩)
        ⟨.ok ⟨none, iset⟩, .error e, sr⟩).1
        = json (errObj "Internal server error") 500) ∧
    (∀ key cid pid e pmr d, key ≠ "" → cid ≠ "" → pid ≠ "" → d ≠ "" →
      (createSubscriptionHandler "POST" key (.ok ⟨some cid, some pid⟩)
        ⟨.ok ⟨none, some ⟨some d⟩⟩, pmr, .error e⟩).1
        = json (errObj "Internal server error") 500) ∧
    (∀ key cid ru e, key ≠ "" → cid ≠ "" → ru ≠ "" →
      (createPortalSessionHandler "POST" key (.ok ⟨some cid, some ru⟩)
        (.error e)).1 = json (errObj "Internal server error") 500) ∧
    (∀ key t toA d e em, key ≠ "" → t ≠ "" → toA ≠ "" →
      buildEmail t toA (d.getD []) = some em →
      (sendEmailHandler "POST" key (.ok ⟨some t, some toA, d⟩)
        (.error e)).1 = json (errObj "Internal server error") 500) ∧
    (json (errObj "Internal server error") 500).body
      = some "\x7b\"error\":\"Internal server error\"\x7d" := by
  refine ⟨?_, ?_, ?_, ?_, ?_, ?_, ?_, rfl⟩ <;> intros <;>
    simp_all [createSetupIntentHandler, createSubscriptionHandler,
      createPortalSessionHandler, sendEmailHandler, jsTruthy]

/-- Witness for C4: each throw point at concrete inputs, including a
concrete exception message, produces the constant 500 envelope. -/
theorem transport_error_internal_500_witness :
    (createSetupIntentHandler "POST" "sk_test_1"
        (.ok ⟨some "a@b.com", some "u1"⟩)
        ⟨.error "connection reset", .error ""⟩).1
      = json (errObj "Internal server error") 500 ∧
    (createSetupIntentHandler "POST" "sk_test_1"
        (.ok ⟨some "a@b.com", some "u1"⟩)
        ⟨.ok ⟨none, some "cus_1"⟩, .error "connection reset"⟩).1
      = json (errObj "Internal server error") 500 ∧
    (createSubscriptionHandler "POST" "sk_test_1"
        (.ok ⟨some "cus_1", some "price_1"⟩)
        ⟨.error "connection reset", .error "", .error ""⟩).1
      = json (errObj "Internal server error") 500 ∧
    (createSubscriptionHandler "POST" "sk_test_1"
        (.ok ⟨some "cus_1", some "price_1"⟩)
        ⟨.ok ⟨none, none⟩, .error "connection reset", .error ""⟩).1
      = json (errObj "Internal server error") 500 ∧
    (createSubscriptionHandler "POST" "sk_test_1"
        (.ok ⟨some "cus_1", some "price_1"⟩)
        ⟨.ok ⟨none, some ⟨some "pm_1"⟩⟩, .error "", .error "connection reset"⟩).1
      = json (errObj "Internal server error") 500 ∧
    (createPortalSessionHandler "POST" "sk_test_1"
        (.ok ⟨some "cus_1", some "https://x.example/"⟩)
        (.error "connection reset")).1
      = json (errObj "Internal server error") 500 ∧
    (sendEmailHandler "POST" "re_test_1"
        (.ok ⟨some "welcome", some "a@b.com", some [("name", "Pat")]⟩)
        (.error "connection reset")).1
      = json (errObj "Internal server error") 500 :=
  ⟨transport_error_internal_500.1 _ _ _ _ _
      (by decide) (by decide) (by decide),
   transport_error_internal_500.2.1 _ _ _ _ _
      (by decide) (by decide) (by decide),
   transport_error_internal_500.2.2.1 _ _ _ _ _ _
      (by decide) (by decide) (by decide),
   transport_error_internal_500.2.2.2.1 _ _ _ _ _ _
      (by decide) (by decide) (by decide) rfl,
   transport_error_internal_500.2.2.2.2.1 _ _ _ _ _ _
      (by decide) (by decide) (by decide) (by decide),
   transport_error_internal_500.2.2.2.2.2.1 _ _ _ _
      (by decide) (by decide) (by decide),
   transport_error_internal_500.2.2.2.2.2.2.1 _ _ _ _ _ _
      (by decide) (by decide) (by decide) rfl⟩

/-- C1 counterexample: in create-subscription, when the payment-methods
listing returns a mapping containing an `error` field (and, as in a real
Stripe error response, no `data` array) for a customer without a default
payment method, the handler does not return a 502 envelope carrying the
upstream error's message: it returns the 400 no-payment-method envelope,
because the listing's `error` field is never inspected. -/
theorem pm_listing_error_not_502 :
    (createSubscriptionHandler "POST" "sk_test_1"
        (.ok ⟨some "cus_1", some "price_1"⟩)
        ⟨.ok ⟨none, none⟩, .ok ⟨some ⟨some "upstream failure"⟩, none⟩,
         .ok ⟨none, none, none⟩⟩).1
      = json (errObj "No payment method found for this customer. Please update your payment method first.") 400
    ∧ (createSubscriptionHandler "POST" "sk_test_1"
        (.ok ⟨some "cus_1", some "price_1"⟩)
        ⟨.ok ⟨none, none⟩, .ok ⟨some ⟨some "upstream failure"⟩, none⟩,
         .ok ⟨none, none, none⟩⟩).1.status ≠ 502 :=
  ⟨rfl, by decide⟩

/-- C1 as amended: in create-subscription, an `error` mapping from the
customer fetch short-circuits the remaining steps and yields a 404
envelope carrying the upstream message or the fallback
"Customer not found"; an `error` mapping from the subscription creation
yields a 502 envelope carrying the upstream message or the fallback
"Failed to create subscription"; but the payment-methods listing's
`error` field is never inspected — when the customer has no default
payment method and the listing returns an error mapping with no `data`
array, the handler short-circuits with the 400 no-payment-method
envelope and performs no subscription call. -/
theorem subscription_error_short_circuit :
    (∀ key cid pid err iset pmr sr, key ≠ "" → cid ≠ "" → pid ≠ "" →
      createSubscriptionHandler "POST" key (.ok ⟨some cid, some pid⟩)
        ⟨.ok ⟨some err, iset⟩, pmr, sr⟩
        = (json (errObj (err.message.getD "Customer not found")) 404,
           [UpCall.stripeGetCustomer cid])) ∧
    (∀ key cid pid err sr, key ≠ "" → cid ≠ "" → pid ≠ "" →
      createSubscriptionHandler "POST" key (.ok ⟨some cid, some pid⟩)
        ⟨.ok ⟨none, none⟩, .ok ⟨some err, none⟩, sr⟩
        = (json (errObj "No payment method found for this customer. Please update your payment method first.") 400,
           [UpCall.stripeGetCustomer cid,
            UpCall.stripeGetPaymentMethods cid])) ∧
    (∀ key cid pid d err pmr sid sst, key ≠ "" → cid ≠ "" → pid ≠ "" →
      d ≠ "" →
      createSubscriptionHandler "POST" key (.ok ⟨some cid, some pid⟩)
        ⟨.ok ⟨none, some ⟨some d⟩⟩, pmr, .ok ⟨some err, sid, sst⟩⟩
        = (json (errObj (err.message.getD "Failed to create subscription")) 502,
           [UpCall.stripeGetCustomer cid,
            UpCall.stripePostSubscriptions cid pid d])) := by
  refine ⟨?_, ?_, ?_⟩ <;> intros <;>
    simp_all [createSubscriptionHandler, jsTruthy, pmAfterListing]

/-- Witness for the amended C1 at concrete inputs: a customer-fetch error
gives 404 with the upstream message and stops after one call, the
ignored listing error gives the 400 no-payment-method envelope, and a
subscription-creation error gives 502 with the upstream message. -/
theorem subscription_error_short_circuit_witness :
    createSubscriptionHandler "POST" "sk_test_1"
        (.ok ⟨some "cus_1", some "price_1"⟩)
        ⟨.ok ⟨some ⟨some "No such customer"⟩, none⟩, .error "", .error ""⟩
      = (json (errObj "No such customer") 404,
         [UpCall.stripeGetCustomer "cus_1"]) ∧
    createSubscriptionHandler "POST" "sk_test_1"
        (.ok ⟨some "cus_1", some "price_1"⟩)
        ⟨.ok ⟨none, none⟩, .ok ⟨some ⟨some "rate limited"⟩, none⟩,
         .ok ⟨none, none, none⟩⟩
      = (json (errObj "No payment method found for this customer. Please update your payment method first.") 400,
         [UpCall.stripeGetCustomer "cus_1",
          UpCall.stripeGetPaymentMethods "cus_1"]) ∧
    createSubscriptionHandler "POST" "sk_test_1"
        (.ok ⟨some "cus_1", some "price_1"⟩)
        ⟨.ok ⟨none, some ⟨some "pm_1"⟩⟩, .error "",
         .ok ⟨some ⟨some "Your card was declined."⟩, none, none⟩⟩
      = (json (errObj "Your card was declined.") 502,
         [UpCall.stripeGetCustomer "cus_1",
          UpCall.stripePostSubscriptions "cus_1" "price_1" "pm_1"]) :=
  ⟨subscription_error_short_circuit.1 _ _ _ _ _ _ _
      (by decide) (by decide) (by decide),
   subscription_error_short_circuit.2.1 _ _ _ _ _
      (by decide) (by decide) (by decide),
   subscription_error_short_circuit.2.2 _ _ _ _ _ _ _ _
      (by decide) (by decide) (by decide) (by decide)⟩

/-- C2: with a well-formed POST body and a successful customer fetch, the
payment method used for subscription creation is (a) the customer's
`invoice_settings.default_payment_method` when truthy, in which case the
payment-methods listing is not consulted; else (b) the `id` of the first
payment method returned by the card-filtered listing; and (c) when
neither yields a (truthy) identifier the handler returns the 400
"No payment method found…" envelope without attempting subscription
creation. -/
theorem payment_method_resolution :
    (∀ key cid pid d pmr subr, key ≠ "" → cid ≠ "" → pid ≠ "" → d ≠ "" →
      (createSubscriptionHandler "POST" key (.ok ⟨some cid, some pid⟩)
        ⟨.ok ⟨none, some ⟨some d⟩⟩, pmr, subr⟩).2
        = [UpCall.stripeGetCustomer cid,
           UpCall.stripePostSubscriptions cid pid d]) ∧
    (∀ key cid pid iset pmid rest perr subr,
      key ≠ "" → cid ≠ "" → pid ≠ "" →
      jsTruthy (iset.bind fun s => s.default_payment_method) = false →
      pmid ≠ "" →
      (createSubscriptionHandler "POST" key (.ok ⟨some cid, some pid⟩)
        ⟨.ok ⟨none, iset⟩, .ok ⟨perr, some (⟨some pmid⟩ :: rest)⟩, subr⟩).2
        = [UpCall.stripeGetCustomer cid,
           UpCall.stripeGetPaymentMethods cid,
           UpCall.stripePostSubscriptions cid pid pmid]) ∧
    (∀ key cid pid iset perr pdata subr,
      key ≠ "" → cid ≠ "" → pid ≠ "" →
      jsTruthy (iset.bind fun s => s.default_payment_method) = false →
      jsTruthy (pmAfterListing
        (iset.bind fun s => s.default_payment_method) pdata) = false →
      createSubscriptionHandler "POST" key (.ok ⟨some cid, some pid⟩)
        ⟨.ok ⟨none, iset⟩, .ok ⟨perr, pdata⟩, subr⟩
        = (json (errObj "No payment method found for this customer. Please update your payment method first.") 400,
           [UpCall.stripeGetCustomer cid,
            UpCall.stripeGetPaymentMethods cid])) := by
  refine ⟨?_, ?_, ?_⟩
  · intro key cid pid d pmr subr hk hc hp hd
    rcases subr with e | ⟨serr, sid, sst⟩
    · simp_all [createSubscriptionHandler, jsTruthy]
    · rcases serr with _ | e <;>
        simp_all [createSubscriptionHandler, jsTruthy]
  · intro key cid pid iset pmid rest perr subr hk hc hp hiset hpm
    rcases subr with e | ⟨serr, sid, sst⟩
    · simp_all [createSubscriptionHandler, jsTruthy, pmAfterListing]
    · rcases serr with _ | e <;>
        simp_all [createSubscriptionHandler, jsTruthy, pmAfterListing]
  · intros
    simp_all [createSubscriptionHandler, jsTruthy, pmAfterListing]

/-- Witness for C2 at concrete inputs: the configured default payment
method wins without a listing call; with no default, the first listed
card's id is used; with no default and an empty listing, 400 with no
subscription attempt. -/
theorem payment_method_resolution_witness :
    (createSubscriptionHandler "POST" "sk_test_1"
        (.ok ⟨some "cus_1", some "price_1"⟩)
        ⟨.ok ⟨none, some ⟨some "pm_default"⟩⟩, .error "",
         .ok ⟨none, some "sub_1", some "active"⟩⟩).2
      = [UpCall.stripeGetCustomer "cus_1",
         UpCall.stripePostSubscriptions "cus_1" "price_1" "pm_default"] ∧
    (createSubscriptionHandler "POST" "sk_test_1"
        (.ok ⟨some "cus_1", some "price_1"⟩)
        ⟨.ok ⟨none, none⟩, .ok ⟨none, some [⟨some "pm_card_1"⟩, ⟨some "pm_card_2"⟩]⟩,
         .ok ⟨none, some "sub_1", some "active"⟩⟩).2
      = [UpCall.stripeGetCustomer "cus_1",
         UpCall.stripeGetPaymentMethods "cus_1",
         UpCall.stripePostSubscriptions "cus_1" "price_1" "pm_card_1"] ∧
    createSubscriptionHandler "POST" "sk_test_1"
        (.ok ⟨some "cus_1", some "price_1"⟩)
        ⟨.ok ⟨none, none⟩, .ok ⟨none, some []⟩,
         .ok ⟨none, some "sub_1", some "active"⟩⟩
      = (json (errObj "No payment method found for this customer. Please update your payment method first.") 400,
         [UpCall.stripeGetCustomer "cus_1",
          UpCall.stripeGetPaymentMethods "cus_1"]) :=
  ⟨payment_method_resolution.1 _ _ _ _ _ _
      (by decide) (by decide) (by decide) (by decide),
   payment_method_resolution.2.1 _ _ _ _ _ _ _ _
      (by decide) (by decide) (by decide) rfl (by decide),
   payment_method_resolution.2.2 _ _ _ _ _ _ _
      (by decide) (by decide) (by decide) rfl rfl⟩

/-- C6: `buildEmail` returns a subject/HTML pair exactly when the
template identifier is one of the five recognized values, and `none` for
every other identifier; and the send-email handler converts that `none`
into a 400 envelope whose error message names the unrecognized type. -/
theorem buildEmail_domain_and_unknown_type_400 :
    (∀ type toA data, ((buildEmail type toA data).isSome = true) ↔
      (type = "welcome" ∨ type = "password-reset" ∨ type = "trial-expiry-7" ∨
       type = "trial-expiry-3" ∨ type = "trial-expiry-1")) ∧
    (∀ key type toA d up, key ≠ "" → type ≠ "" → toA ≠ "" →
      buildEmail type toA (d.getD []) = none →
      sendEmailHandler "POST" key (.ok ⟨some type, some toA, d⟩) up
        = (json (errObj ("Unknown email type: " ++ type)) 400, [])) := by
  constructor
  · intro type toA data
    constructor
    · intro h
      by_contra hc
      push_neg at hc
      obtain ⟨h1, h2, h3, h4, h5⟩ := hc
      simp [buildEmail, h1, h2, h3, h4, h5] at h
    · rintro (h | h | h | h | h) <;> simp [buildEmail, h]
  · intro key type toA d up hk ht hto hb
    simp_all [sendEmailHandler, jsTruthy]

/-- Witness for C6: `"unknown-type"` is rendered to `none` and the
handler returns the 400 envelope naming it. -/
theorem buildEmail_domain_and_unknown_type_400_witness :
    buildEmail "unknown-type" "a@b.com" [] = none ∧
    sendEmailHandler "POST" "re_test_1"
        (.ok ⟨some "unknown-type", some "a@b.com", none⟩) (.error "")
      = (json (errObj ("Unknown email type: " ++ "unknown-type")) 400, []) :=
  ⟨rfl,
   buildEmail_domain_and_unknown_type_400.2 _ _ _ _ _
      (by decide) (by decide) (by decide) rfl⟩

/-- C7: email rendering is pure and deterministic. `buildEmail` is
embedded as a total function of its three arguments — the source reads
no clock, randomness or mutable state — so two invocations on the same
identifier and context yield identical subject and HTML strings; the
recipient argument (unused by the source, bound as `_to`) does not
influence the output either. -/
theorem buildEmail_deterministic :
    ∀ type toA toA' data,
      buildEmail type toA data = buildEmail type toA' data :=
  fun _ _ _ _ => rfl

/-- C10: for every recognized template identifier and every context
mapping that omits the `name` key, rendering behaves exactly as if the
context said `name = "Golfer"` (so rendering succeeds and the
interpolated display name is the literal fallback "Golfer"), and the
send-email handler treats an omitted `data` mapping exactly as the empty
mapping. -/
theorem missing_name_defaults_golfer :
    (∀ type toA data, jsGet data "name" = none →
      (type = "welcome" ∨ type = "password-reset" ∨ type = "trial-expiry-7" ∨
       type = "trial-expiry-3" ∨ type = "trial-expiry-1") →
      buildEmail type toA data = buildEmail type toA [("name", "Golfer")] ∧
      (buildEmail type toA data).isSome = true) ∧
    (∀ method key type toA up,
      sendEmailHandler method key (.ok ⟨type, toA, none⟩) up
        = sendEmailHandler method key (.ok ⟨type, toA, some []⟩) up) := by
  constructor
  · have h2 : jsGet [("name", "Golfer")] "name" = some "Golfer" := rfl
    rintro type toA data hname (h | h | h | h | h) <;> subst h <;>
      exact ⟨by simp [buildEmail, hname, h2], by simp [buildEmail, hname]⟩
  · intros
    rfl

/-- Witness for C10: a non-empty context lacking the `name` key (here
only a handicap entry) renders the welcome template exactly as the
"Golfer" context, successfully. -/
theorem missing_name_defaults_golfer_witness :
    jsGet [("handicap", "12")] "name" = none ∧
    buildEmail "welcome" "a@b.com" [("handicap", "12")]
      = buildEmail "welcome" "a@b.com" [("name", "Golfer")] ∧
    (buildEmail "welcome" "a@b.com" [("handicap", "12")]).isSome = true :=
  ⟨rfl,
   (missing_name_defaults_golfer.1 "welcome" "a@b.com" [("handicap", "12")]
      rfl (Or.inl rfl)).1,
   (missing_name_defaults_golfer.1 "welcome" "a@b.com" [("handicap", "12")]
      rfl (Or.inl rfl)).2⟩

/-- C3 counterexample: the browser-side `sendEmail` wrapper does not
throw when the handler's JSON response contains an `error` field — the
source is `return res.json();` with no error inspection — so applied to
a response mapping whose `error` field is `"boom"` it returns the parsed
mapping instead of throwing. -/
theorem sendEmail_wrapper_does_not_throw :
    sendEmailWrapper ⟨some "boom", none⟩ = .ok ⟨some "boom", none⟩ ∧
    isThrow (sendEmailWrapper ⟨some "boom", none⟩) = false :=
  ⟨rfl, rfl⟩

/-- C3 as amended: `createSetupIntent` throws an exception carrying the
error message whenever the parsed response's `error` field is truthy
(present and non-empty) and returns the parsed mapping otherwise;
`sendEmail` returns the parsed response mapping unconditionally, never
throwing on an `error` field. -/
theorem wrapper_error_propagation :
    (∀ j : CsiResponseJson, jsTruthy j.error = true →
      createSetupIntentWrapper j = .error (j.error.getD "")) ∧
    (∀ j : CsiResponseJson, jsTruthy j.error = false →
      createSetupIntentWrapper j = .ok j) ∧
    (∀ j : SendEmailRespJson,
      sendEmailWrapper j = .ok j ∧ isThrow (sendEmailWrapper j) = false) := by
  refine ⟨?_, ?_, ?_⟩ <;> intros <;>
    simp_all [createSetupIntentWrapper, sendEmailWrapper, isThrow]

/-- Witness for the amended C3: a response with a non-empty error throws
from `createSetupIntent` with that message; a success response is
returned; an error response from `sendEmail` is returned, not thrown. -/
theorem wrapper_error_propagation_witness :
    createSetupIntentWrapper ⟨some "Failed to create customer", none, none⟩
      = .error "Failed to create customer" ∧
    createSetupIntentWrapper ⟨none, some "seti_1_secret_x", some "cus_1"⟩
      = .ok ⟨none, some "seti_1_secret_x", some "cus_1"⟩ ∧
    sendEmailWrapper ⟨some "boom", some "msg_1"⟩
      = .ok ⟨some "boom", some "msg_1"⟩ :=
  ⟨wrapper_error_propagation.1 _ rfl,
   wrapper_error_propagation.2.1 _ rfl,
   (wrapper_error_propagation.2.2 ⟨some "boom", some "msg_1"⟩).1⟩

/-- C8 counterexample: the `updated_at` value written with the upserted
row equals the browser clock reading passed by the facade — two
different browser clock values produce two different stored timestamps —
so the last-modified timestamp is supplied client-side by the facade,
not set by the server as the claim states. -/
theorem upsert_timestamp_is_browser_clock :
    rowGet (upsertProfileRow "user-1" [("display_name", "Pat")]
      "2026-10-11T12:00:00.000Z") "updated_at"
      = some "2026-10-11T12:00:00.000Z" ∧
    rowGet (upsertProfileRow "user-1" [("display_name", "Pat")]
      "1999-01-01T00:00:00.000Z") "updated_at"
      = some "1999-01-01T00:00:00.000Z" :=
  ⟨rfl, rfl⟩

/-- C8 as amended: `upsertProfile` performs an insert-or-update keyed by
the user identifier — the upserted row's `id` is the given user id
whenever the caller's fields do not themselves rebind `id` — and the
row's `updated_at` timestamp is set by the facade itself from the
browser clock at call time, overriding any caller-supplied `updated_at`
field; it is not supplied by the caller, but neither is it server-set. -/
theorem upsert_row_keyed_and_timestamped :
    (∀ userId fields browserNow,
      rowGet (upsertProfileRow userId fields browserNow) "updated_at"
        = some browserNow) ∧
    (∀ userId fields browserNow, (∀ kv ∈ fields, kv.1 ≠ "id") →
      rowGet (upsertProfileRow userId fields browserNow) "id"
        = some userId) := by
  constructor
  · intro userId fields browserNow
    simp [upsertProfileRow, rowGet]
  · intro userId fields browserNow h
    have hnone : fields.reverse.find? (fun p => p.1 == "id") = none :=
      List.find?_eq_none.mpr fun x hx => by
        simpa using h x (List.mem_reverse.mp hx)
    simp [upsertProfileRow, rowGet, hnone]

/-- Witness for the amended C8 at concrete inputs: the stored row carries
the facade's timestamp (even against a caller-supplied `updated_at`) and
is keyed by the given user id. -/
theorem upsert_row_keyed_and_timestamped_witness :
    rowGet (upsertProfileRow "user-1" [("updated_at", "2000-01-01T00:00:00.000Z")]
      "2026-10-11T12:00:00.000Z") "updated_at"
      = some "2026-10-11T12:00:00.000Z" ∧
    rowGet (upsertProfileRow "user-1" [("display_name", "Pat")]
      "2026-10-11T12:00:00.000Z") "id" = some "user-1" :=
  ⟨upsert_row_keyed_and_timestamped.1 _ _ _,
   upsert_row_keyed_and_timestamped.2 _ _ _ (by decide)⟩

end FourFore
